import Mathlib

/-!
Verification of `ppt-gen.py` (savir2010/video-gen): a shallow embedding of the
script's pure logic.  Python strings are modelled as `List Char`; byte payloads
as `List Nat`; the network is modelled by passing the remote responses in as
explicit arguments; the filesystem (the pattern store file, the chart/audio
output files) is modelled by explicit state values / returned `Option` payloads;
a Python exception escaping a function is modelled by `Except`.
-/

/-! ## Python string primitives (semantics of the `str` methods the script uses) -/

/-- Whitespace characters recognised by Python's `str.strip` / `str.split`
(ASCII subset, which covers every string the script manipulates). -/
def isPySpace (c : Char) : Bool :=
  c = ' ' || c = '\t' || c = '\n' || c = '\r' || c = '\x0b' || c = '\x0c'

/-- Remove trailing whitespace (`str.rstrip`). -/
def pyDropTrailing (l : List Char) : List Char :=
  ((l.reverse).dropWhile isPySpace).reverse

/-- Python `str.strip()`: remove leading and trailing whitespace. -/
def pyStrip (l : List Char) : List Char :=
  pyDropTrailing (l.dropWhile isPySpace)

/-- Python `str.split(sep)` for a one-character separator: keeps empty parts,
`"".split(sep) = [""]`. -/
def pySplitChar (sep : Char) : List Char → List (List Char)
  | [] => [[]]
  | c :: rest =>
    match pySplitChar sep rest with
    | [] => [[]]
    | h :: t => if c = sep then [] :: h :: t else (c :: h) :: t

/-- Fuel-driven core of Python `str.count(pat)` (non-overlapping, left to right). -/
def pyCountAux (pat : List Char) : List Char → Nat → Nat
  | _, 0 => 0
  | l, f + 1 =>
    match l with
    | [] => 0
    | _ :: rest =>
      if pat.isPrefixOf l then 1 + pyCountAux pat (l.drop pat.length) f
      else pyCountAux pat rest f

/-- Python `str.count(pat)` for a non-empty pattern. -/
def pyCountSeq (pat l : List Char) : Nat :=
  pyCountAux pat l l.length

/-- Fuel-driven core of Python `str.split(sep)` for a multi-character separator. -/
def pySplitOnAux (sep : List Char) : List Char → Nat → List (List Char)
  | _, 0 => [[]]
  | l, f + 1 =>
    match l with
    | [] => [[]]
    | c :: rest =>
      if sep.isPrefixOf l then
        [] :: pySplitOnAux sep (l.drop sep.length) f
      else
        match pySplitOnAux sep rest f with
        | [] => [[c]]
        | h :: t => (c :: h) :: t

/-- Python `str.split(sep)` for a non-empty multi-character separator. -/
def pySplitOnSeq (sep l : List Char) : List (List Char) :=
  pySplitOnAux sep l l.length

/-- Fuel-driven core of Python `str.replace(pat, repl)`. -/
def pyReplaceAux (pat repl : List Char) : List Char → Nat → List Char
  | _, 0 => []
  | l, f + 1 =>
    match l with
    | [] => []
    | c :: rest =>
      if pat.isPrefixOf l then repl ++ pyReplaceAux pat repl (l.drop pat.length) f
      else c :: pyReplaceAux pat repl rest f

/-- Python `str.replace(pat, repl)` for a non-empty pattern. -/
def pyReplaceSeq (pat repl l : List Char) : List Char :=
  pyReplaceAux pat repl l l.length

/-- Helper for Python's no-argument `str.split()`: accumulates the current word. -/
def pySplitWSAux : List Char → List Char → List (List Char)
  | [], curr => if curr.isEmpty then [] else [curr.reverse]
  | c :: rest, curr =>
    if isPySpace c then
      if curr.isEmpty then pySplitWSAux rest []
      else curr.reverse :: pySplitWSAux rest []
    else pySplitWSAux rest (c :: curr)

/-- Python `str.split()` (no argument): split on whitespace runs, dropping
empty parts. -/
def pySplitWS (l : List Char) : List (List Char) :=
  pySplitWSAux l []

/-- Python `' '.join(words)`. -/
def joinSpace : List (List Char) → List Char
  | [] => []
  | [w] => w
  | w :: rest => w ++ ' ' :: joinSpace rest

/-- Python `l[-n:]`: the last `n` elements (all of them when fewer). -/
def pyLastN (n : Nat) (l : List α) : List α :=
  l.drop (l.length - n)

/-- Python `pat in s` for strings: `pat` occurs as a contiguous substring. -/
def pyInSeq (pat : List Char) : List Char → Bool
  | [] => pat.isEmpty
  | c :: rest => pat.isPrefixOf (c :: rest) || pyInSeq pat rest

/-! ## Pattern Store (`load_successful_patterns` / `save_successful_pattern`,
ppt-gen.py lines 22-50).  The on-disk pickle file is modelled by the value of
type `PatternStore`; `datetime.now()` is passed in as the `ts` argument. -/

/-- One entry of the pattern store: `{"pattern": ..., "timestamp": ...}`. -/
structure PatternEntry where
  pattern : List Char
  timestamp : Nat
  deriving DecidableEq, Repr

/-- The deserialized store structure
`{"successful_patterns": [...], "failed_patterns": [...]}`. -/
structure PatternStore where
  successful_patterns : List PatternEntry
  failed_patterns : List PatternEntry
  deriving DecidableEq, Repr

/-- `load_successful_patterns()` when the file is absent or unreadable
(ppt-gen.py line 31): both lists empty. -/
def emptyStore : PatternStore := ⟨[], []⟩

/-- `save_successful_pattern(pattern, success)` (ppt-gen.py lines 33-50),
acting on the loaded store `st` and returning the structure written back:
append `{pattern, timestamp}` to the list selected by `success`, then slice
that list with `[-50:]` (successes) or `[-20:]` (failures). -/
def save_successful_pattern (st : PatternStore) (p : List Char) (ts : Nat)
    (success : Bool) : PatternStore :=
  if success then
    { st with successful_patterns :=
        pyLastN 50 (st.successful_patterns ++ [⟨p, ts⟩]) }
  else
    { st with failed_patterns :=
        pyLastN 20 (st.failed_patterns ++ [⟨p, ts⟩]) }

/-- Record a whole sequence of patterns with the same success flag, in order
(iterated `save_successful_pattern`). -/
def recordAll (st : PatternStore) (ps : List PatternEntry) (success : Bool) :
    PatternStore :=
  ps.foldl (fun s e => save_successful_pattern s e.pattern e.timestamp success) st

/-! ## Remote HTTP calls (modelled as explicit response values) -/

/-- Outcome of one `requests.get` call: either a response (status code,
`content-type` header, body bytes) or a raised exception (timeout,
connection error, ...). -/
inductive HttpOutcome where
  | response (status : Nat) (contentType : List Char) (body : List Nat)
  | exception
  deriving DecidableEq, Repr

/-- `validate_mermaid_syntax(mermaid_code)` (ppt-gen.py lines 225-239), as a
function of the rendering service's outcome for the encoded source: `True`
only when the status is 200, the declared content type contains `image`, and
the payload is longer than 1000 bytes; every other response, and any
exception, gives `False`. -/
def validate_mermaid_syntax (o : HttpOutcome) : Bool :=
  match o with
  | .response status contentType body =>
    if status == 200 then
      pyInSeq "image".data contentType && decide (1000 < body.length)
    else false
  | .exception => false

/-! ## Diagram Generator (`generate_mermaid_chart`, ppt-gen.py lines 103-223) -/

/-- Code-fence cleanup applied to the raw model reply
(ppt-gen.py lines 168-174): strip, then either cut out the
` ```mermaid ... ``` ` block or delete all ` ``` ` markers. -/
def cleanMermaidResponse (raw : List Char) : List Char :=
  let code := pyStrip raw
  if pyInSeq "```mermaid".data code then
    pyStrip ((pySplitOnSeq "```".data
      ((pySplitOnSeq "```mermaid".data code).getD 1 [])).getD 0 [])
  else if pyInSeq "```".data code then
    pyStrip (pyReplaceSeq "```".data [] code)
  else code

/-- Result of the strict structural validation block
(ppt-gen.py lines 176-202).  `indexError` is the `lines[1]` access raising
`IndexError` when the candidate has a single line (caught by the attempt's
generic `except`, recording nothing). -/
inductive CheckResult where
  | rejectInit
  | rejectGraph
  | rejectArrows
  | rejectQuotes
  | indexError
  | passed
  deriving DecidableEq, Repr

/-- The strict structural validation of a candidate diagram source
(ppt-gen.py lines 176-202), checked in source order: init-directive prefix on
`lines[0].strip()`, `graph TD`/`graph LR` in `lines[1]`, at least 4 `-->`
occurrences, and no `["` / `['` anywhere. -/
def structuralCheck (code : List Char) : CheckResult :=
  let lines := pySplitChar '\n' code
  if !("%%\x7binit:".data.isPrefixOf (pyStrip (lines.headD []))) then
    .rejectInit
  else
    match lines.get? 1 with
    | none => .indexError
    | some l1 =>
      if !(pyInSeq "graph TD".data l1 || pyInSeq "graph LR".data l1) then
        .rejectGraph
      else if pyCountSeq "-->".data code < 4 then
        .rejectArrows
      else if pyInSeq "[\"".data code || pyInSeq "[\x27".data code then
        .rejectQuotes
      else
        .passed

/-- `True` exactly when the structural validation block rejects the candidate,
printing an error, recording it as a failed pattern and continuing to the
next attempt. -/
def structRejectedB (code : List Char) : Bool :=
  match structuralCheck code with
  | .rejectInit => true
  | .rejectGraph => true
  | .rejectArrows => true
  | .rejectQuotes => true
  | .indexError => false
  | .passed => false

/-- What one iteration of the `generate_mermaid_chart` retry loop receives
from the outside world: either the chat-completion call raises, or it returns
a reply text together with the rendering service's outcome for the cleaned
candidate (used by `validate_mermaid_syntax`). -/
inductive AttemptInput where
  | llmError
  | llmReply (text : List Char) (render : HttpOutcome)
  deriving DecidableEq, Repr

/-- One iteration of the retry loop (ppt-gen.py lines 155-220): returns the
pattern records appended by this attempt (pattern text, success flag) and
`some code` when the attempt returns successfully.  An exception anywhere in
the attempt (the model call raising, or the `lines[1]` IndexError) reaches the
generic handler and records nothing. -/
def processAttempt (inp : AttemptInput) : List (List Char × Bool) × Option (List Char) :=
  match inp with
  | .llmError => ([], none)
  | .llmReply text render =>
    let code := cleanMermaidResponse text
    match structuralCheck code with
    | .rejectInit => ([(code, false)], none)
    | .rejectGraph => ([(code, false)], none)
    | .rejectArrows => ([(code, false)], none)
    | .rejectQuotes => ([(code, false)], none)
    | .indexError => ([], none)
    | .passed =>
      if validate_mermaid_syntax render then ([(code, true)], some code)
      else ([(code, false)], none)

/-- The retry loop of `generate_mermaid_chart` (ppt-gen.py lines 155-220):
`attemptNo` is the current 0-based attempt index, the second `Nat` the
remaining attempts.  Returns all pattern records appended, and `some code` on
success. -/
def generateLoop (inputs : Nat → AttemptInput) : Nat → Nat → List (List Char × Bool) × Option (List Char)
  | _, 0 => ([], none)
  | attemptNo, fuel + 1 =>
    match (processAttempt (inputs attemptNo)).2 with
    | some code => ((processAttempt (inputs attemptNo)).1, some code)
    | none =>
      ((processAttempt (inputs attemptNo)).1 ++ (generateLoop inputs (attemptNo + 1) fuel).1,
       (generateLoop inputs (attemptNo + 1) fuel).2)

/-- `generate_mermaid_chart` (ppt-gen.py lines 103-223) with its fixed
`max_retries=10`: the records appended to the pattern store, and either the
accepted diagram source or the final exhaustion exception (line 223). -/
def generate_mermaid_chart (inputs : Nat → AttemptInput) :
    List (List Char × Bool) × Except Unit (List Char) :=
  match generateLoop inputs 0 10 with
  | (recs, some code) => (recs, .ok code)
  | (recs, none) => (recs, .error ())

/-- The attempts actually executed by the loop (each attempt up to and
including the first returning one). -/
def executedAttempts (inputs : Nat → AttemptInput) : Nat → Nat → List AttemptInput
  | _, 0 => []
  | attemptNo, fuel + 1 =>
    inputs attemptNo ::
      (if (processAttempt (inputs attemptNo)).2.isSome then []
       else executedAttempts inputs (attemptNo + 1) fuel)

/-- An attempt reaches a success/failure classification (and hence a pattern
record) exactly when it does not end in an exception: the model call must
return, and the candidate must not trigger the one-line `IndexError`. -/
def attemptClassified (inp : AttemptInput) : Bool :=
  match inp with
  | .llmError => false
  | .llmReply text _ => !(structuralCheck (cleanMermaidResponse text) == .indexError)

/-! ## Diagram Renderer (`render_mermaid_to_image`, ppt-gen.py lines 241-275) -/

/-- Observable events of one `render_mermaid_to_image` run: an HTTP request
for a given 0-based attempt index, a `time.sleep` pause (seconds), and the
write of the response bytes to `output_path`. -/
inductive REvent where
  | attemptReq (i : Nat)
  | sleep (secs : Nat)
  | write (bytes : List Nat)
  deriving DecidableEq, Repr

/-- An attempt succeeds exactly when the response has status 200 and an
`image` content type (ppt-gen.py lines 255-257; no size check here, unlike
`validate_mermaid_syntax`). -/
def isRenderSuccess (o : HttpOutcome) : Bool :=
  match o with
  | .response status contentType _ => status == 200 && pyInSeq "image".data contentType
  | .exception => false

/-- Body bytes of a response (`[]` for an exception, never used in that case). -/
def respBody (o : HttpOutcome) : List Nat :=
  match o with
  | .response _ _ body => body
  | .exception => []

/-- The retry loop of `render_mermaid_to_image` (ppt-gen.py lines 246-273):
`resp attemptNo` is the outcome of the HTTP GET of that attempt.  Returns the
event trace and `some bytes` when an attempt succeeded (the bytes written to
`output_path`).  A failing response sleeps 2 seconds unconditionally; a raised
exception sleeps only when `attempt < max_retries - 1`. -/
def renderGo (resp : Nat → HttpOutcome) (maxr : Nat) :
    Nat → Nat → List REvent × Option (List Nat)
  | _, 0 => ([], none)
  | attemptNo, fuel + 1 =>
    match resp attemptNo with
    | .response status contentType body =>
      if status == 200 && pyInSeq "image".data contentType then
        ([.attemptReq attemptNo, .write body], some body)
      else
        (.attemptReq attemptNo :: .sleep 2 :: (renderGo resp maxr (attemptNo + 1) fuel).1,
         (renderGo resp maxr (attemptNo + 1) fuel).2)
    | .exception =>
      if attemptNo < maxr - 1 then
        (.attemptReq attemptNo :: .sleep 2 :: (renderGo resp maxr (attemptNo + 1) fuel).1,
         (renderGo resp maxr (attemptNo + 1) fuel).2)
      else
        (.attemptReq attemptNo :: (renderGo resp maxr (attemptNo + 1) fuel).1,
         (renderGo resp maxr (attemptNo + 1) fuel).2)

/-- `render_mermaid_to_image(mermaid_code, output_path)` with its fixed
`max_retries=3`: the event trace, and either the bytes written to
`output_path` or the final exhaustion exception (ppt-gen.py line 275). -/
def render_mermaid_to_image (resp : Nat → HttpOutcome) :
    List REvent × Except (List Char) (List Nat) :=
  match renderGo resp 3 0 3 with
  | (tr, some bytes) => (tr, .ok bytes)
  | (tr, none) => (tr, .error "Failed to render Mermaid chart to image".data)

/-- Number of HTTP attempts in a trace. -/
def countAttempts (tr : List REvent) : Nat :=
  (tr.filter fun e => match e with | .attemptReq _ => true | _ => false).length

/-- The file writes in a trace. -/
def writeEvents (tr : List REvent) : List (List Nat) :=
  tr.filterMap fun e => match e with | .write b => some b | _ => none

/-- Expected trace of `i` failed attempts: each issues its request and then
pauses 2 seconds before the next attempt. -/
def failPrefix (i : Nat) : List REvent :=
  ((List.range i).map fun j => [REvent.attemptReq j, REvent.sleep 2]).flatten

/-- The trailing pause after the last failed attempt: present for a failing
response (unconditional `time.sleep(2)`), absent for an exception (guarded by
`attempt < max_retries - 1`). -/
def tailPause (o : HttpOutcome) : List REvent :=
  match o with
  | .exception => []
  | .response _ _ _ => [.sleep 2]

/-! ## Speech Synthesizer (`generate_speech_elevenlabs`, ppt-gen.py
lines 309-348).  The decoded playback length in milliseconds of an audio
payload is external (pydub), so it is passed in as `decodeMs`. -/

/-- A response of the text-to-speech POST (which the script issues without a
`try`, so an exception would propagate; only responses are modelled). -/
structure SynthResponse where
  status : Nat
  body : List Nat
  deriving DecidableEq, Repr

/-- `generate_speech_elevenlabs(text, output_path)` (ppt-gen.py lines 336-348):
on status 200, write the raw bytes to `output_path` and return
`len(AudioSegment.from_mp3(output_path)) / 1000.0`; otherwise print the error
and return `5.0`, leaving `output_path` unwritten (`none`). -/
def generate_speech_elevenlabs (decodeMs : List Nat → Nat) (resp : SynthResponse) :
    Option (List Nat) × ℚ :=
  if resp.status == 200 then
    (some resp.body, (decodeMs resp.body : ℚ) / 1000)
  else
    (none, 5)

/-! ## Slide data and the dispatch on `slide_data.get('type')` -/

/-- A slide descriptor as the script reads it: the `'type'` field may be
absent (`slide_data.get('type')` returns `None`). -/
structure SlideData where
  type? : Option String
  title? : Option String
  subtitle? : Option String
  bullets : List String
  deriving DecidableEq, Repr

/-- Orchestrator dispatch (ppt-gen.py line 512): a Mermaid chart is generated
exactly when `slide_data.get('type') != 'title'`. -/
def slideAttemptsDiagram (s : SlideData) : Bool :=
  !(s.type? == some "title")

/-- Narration dispatch (ppt-gen.py line 279): the welcoming title-slide prompt
is used exactly when `slide_data.get('type') == 'title'`; every other slide
gets the content-style (no-greeting) prompt. -/
def narrationUsesGreeting (s : SlideData) : Bool :=
  s.type? == some "title"

/-- Compositor dispatch (ppt-gen.py line 385): the centered title layout is
drawn exactly when `slide_data.get('type') == 'title'`; every other slide gets
the content layout. -/
def slideUsesTitleLayout (s : SlideData) : Bool :=
  s.type? == some "title"

/-- Input to `parse_gpt_content` (ppt-gen.py lines 474-477): the model reply
is either not valid JSON (`json.loads` raises), a JSON object without a
`'slides'` key (`data['slides']` raises `KeyError`), or an object whose
`'slides'` value is a list of slide descriptors. -/
inductive GptContent where
  | invalidJson
  | jsonWithoutSlides
  | jsonWithSlides (slides : List SlideData)
  deriving DecidableEq, Repr

/-- `parse_gpt_content(content)` (ppt-gen.py lines 474-477): `json.loads`
followed by `data['slides']`, with no validation of the slides themselves. -/
def parse_gpt_content : GptContent → Except Unit (List SlideData)
  | .invalidJson => .error ()
  | .jsonWithoutSlides => .error ()
  | .jsonWithSlides slides => .ok slides

/-! ## The per-slide diagram step of the Orchestrator
(`generate_video_presentation`, ppt-gen.py lines 509-522) -/

/-- The per-slide diagram step: for a non-title slide, `try:` generate the
chart (`genOutcome` is what `generate_mermaid_chart` does) and, if that
returned, render it (`resp` drives `render_mermaid_to_image`); `except` any
exception and continue with `mermaid_image_path = None`.  The `.error` result
of the `Except` models an exception escaping the step uncaught — note that no
branch produces it.  `chartPath` is the `charts_dir/chart_{idx:02d}.png` path
computed at line 516. -/
def perSlideDiagramStep (s : SlideData) (genOutcome : Except Unit (List Char))
    (resp : Nat → HttpOutcome) (chartPath : List Char) :
    Except Unit (Option (List Char)) :=
  if !(s.type? == some "title") then
    match genOutcome with
    | .error _ => .ok none
    | .ok _ =>
      match (render_mermaid_to_image resp).2 with
      | .ok _ => .ok (some chartPath)
      | .error _ => .ok none
  else .ok none

/-! ## Output filename derivation (ppt-gen.py lines 491-494) -/

/-- The sanitized topic: keep only alphanumerics, space, hyphen, underscore;
replace each space by an underscore; truncate to 50 characters
(ppt-gen.py lines 492-493). -/
def sanitizeTopic (topic : List Char) : List Char :=
  ((topic.filter fun c => c.isAlphanum || c = ' ' || c = '-' || c = '_').map
    fun c => if c = ' ' then '_' else c).take 50

/-- The derived default output filename
`f"{safe_topic}_presentation.mp4"` (ppt-gen.py line 494). -/
def deriveOutputFilename (topic : List Char) : List Char :=
  sanitizeTopic topic ++ "_presentation.mp4".data

/-! ## Slide Compositor word wrap (`create_slide_image`, ppt-gen.py
lines 409-435).  The pixel width of a rendered text
(`draw.textbbox(...)[2] - [0]` at the bullet font) is external (PIL), so it is
passed in as `measure`. -/

/-- The wrap loop body (ppt-gen.py lines 413-427), transcribed: append the
word, measure `' '.join(current_line)`; when over the bound, pop the word,
flush `' '.join(current_line)` as a finished line and restart from the word.
After the loop, flush the current line if non-empty. -/
def wrapGo (measure : List Char → Nat) (maxW : Nat) :
    List (List Char) → List (List Char) → List (List Char) → List (List Char)
  | [], curr, acc => if curr.isEmpty then acc else acc ++ [joinSpace curr]
  | w :: ws, curr, acc =>
    if maxW < measure (joinSpace (curr ++ [w])) then
      wrapGo measure maxW ws [w] (acc ++ [joinSpace curr])
    else
      wrapGo measure maxW ws (curr ++ [w]) acc

/-- The word wrap of one bullet (ppt-gen.py lines 412-427) with the script's
`max_bullet_width = 800`. -/
def wrapBullet (measure : List Char → Nat) (bullet : List Char) : List (List Char) :=
  wrapGo measure 800 (pySplitWS bullet) [] []

/-! ## Claim-side formalizations and concrete inputs -/

/-- The structural-rejection condition as the specification words it: the
first line does not start with the initialization-directive prefix, or the
second line contains neither graph-declaration token (vacuously when there is
no second line), or fewer than 4 arrow tokens, or a quote character
immediately inside a node-label bracket. -/
def specStructuralRejectB (code : List Char) : Bool :=
  let lines := pySplitChar '\n' code
  (!("%%\x7binit:".data.isPrefixOf (pyStrip (lines.headD []))))
  || (match lines.get? 1 with
      | none => true
      | some l1 => !(pyInSeq "graph TD".data l1 || pyInSeq "graph LR".data l1))
  || decide (pyCountSeq "-->".data code < 4)
  || pyInSeq "[\"".data code
  || pyInSeq "[\x27".data code

/-- The accept example of the claim: exact init directive, `graph TD`, six
single-arrow connection lines with unquoted bracketed labels. -/
def acceptExample : List Char :=
  ("%%\x7binit: \x7b\x27theme\x27:\x27forest\x27\x7d\x7d%%\n"
   ++ "graph TD\n"
   ++ "A[Start] --> B[Phase One]\n"
   ++ "B --> C[Phase Two]\n"
   ++ "C --> D[Phase Three]\n"
   ++ "D --> E[Phase Four]\n"
   ++ "E --> F[Phase Five]\n"
   ++ "F --> G[End]").data

set_option maxRecDepth 10000

/-! ## Concrete inputs used by witnesses and counterexamples -/

/-- A prior store state whose `failed_patterns` exceeds its cap (possible on
disk, e.g. a hand-edited or legacy file: `load` deserializes it unchanged). -/
def overfullStore : PatternStore := ⟨[], List.replicate 21 ⟨"x".data, 0⟩⟩

/-- A concrete content slide. -/
def contentSlide : SlideData := ⟨some "content", some "T", none, []⟩

/-- A rendering endpoint that always raises (so `render_mermaid_to_image`
exhausts its 3 attempts and raises the rendering-exhausted error). -/
def alwaysFailResp : Nat → HttpOutcome := fun _ => .exception

/-- An endpoint that fails twice (HTTP 500) and succeeds on the third call. -/
def thirdTimeResp : Nat → HttpOutcome := fun i =>
  if i < 2 then .response 500 [] [] else .response 200 "image/png".data [7, 7]

/-- A bullet consisting of one 801-character word. -/
def longWordBullet : List Char := List.replicate 801 'a'

/-! ## Helper lemmas -/

theorem drop_len_add {α : Type} (c d : List α) (k : Nat) :
    (c ++ d).drop (c.length + k) = d.drop k := by
  induction c with
  | nil => simp
  | cons x xs ih => simp [Nat.succ_add, ih]

theorem pyLastN_length_le {α : Type} (n : Nat) (l : List α) :
    (pyLastN n l).length ≤ n := by
  simp only [pyLastN, List.length_drop]
  omega

theorem pyLastN_append_right {α : Type} (n : Nat) (c d : List α)
    (h : n ≤ d.length) : pyLastN n (c ++ d) = pyLastN n d := by
  have hk : c.length + d.length - n = c.length + (d.length - n) := by omega
  simp only [pyLastN, List.length_append, hk, drop_len_add]

theorem pyLastN_append_absorb {α : Type} (n : Nat) (a b : List α) :
    pyLastN n (pyLastN n a ++ b) = pyLastN n (a ++ b) := by
  by_cases h : a.length ≤ n
  · have h0 : a.length - n = 0 := by omega
    simp [pyLastN, h0]
  · have hd : n ≤ (a.drop (a.length - n) ++ b).length := by
      rw [List.length_append, List.length_drop]; omega
    have hsplit : a.take (a.length - n) ++ (a.drop (a.length - n) ++ b) = a ++ b := by
      rw [← List.append_assoc, List.take_append_drop]
    calc pyLastN n (pyLastN n a ++ b)
        = pyLastN n (a.drop (a.length - n) ++ b) := rfl
      _ = pyLastN n (a.take (a.length - n) ++ (a.drop (a.length - n) ++ b)) :=
          (pyLastN_append_right n _ _ hd).symm
      _ = pyLastN n (a ++ b) := by rw [hsplit]

theorem recordAll_true (ps : List PatternEntry) :
    ∀ st : PatternStore, st.successful_patterns.length ≤ 50 →
      (recordAll st ps true).successful_patterns
          = pyLastN 50 (st.successful_patterns ++ ps)
      ∧ (recordAll st ps true).failed_patterns = st.failed_patterns := by
  induction ps with
  | nil =>
    intro st h
    have h0 : st.successful_patterns.length - 50 = 0 := by omega
    simp [recordAll, pyLastN, h0]
  | cons e ps ih =>
    intro st h
    have hstep : recordAll st (e :: ps) true
        = recordAll (save_successful_pattern st e.pattern e.timestamp true) ps true := rfl
    have hsucc : (save_successful_pattern st e.pattern e.timestamp true).successful_patterns
        = pyLastN 50 (st.successful_patterns ++ [⟨e.pattern, e.timestamp⟩]) := by
      simp [save_successful_pattern]
    have hfail : (save_successful_pattern st e.pattern e.timestamp true).failed_patterns
        = st.failed_patterns := by
      simp [save_successful_pattern]
    have hlen : (save_successful_pattern st e.pattern e.timestamp true).successful_patterns.length ≤ 50 := by
      rw [hsucc]; exact pyLastN_length_le _ _
    rcases ih (save_successful_pattern st e.pattern e.timestamp true) hlen with ⟨ih1, ih2⟩
    constructor
    · rw [hstep, ih1, hsucc, pyLastN_append_absorb]
      congr 1
      simp
    · rw [hstep, ih2, hfail]

theorem recordAll_false (ps : List PatternEntry) :
    ∀ st : PatternStore, st.failed_patterns.length ≤ 20 →
      (recordAll st ps false).failed_patterns
          = pyLastN 20 (st.failed_patterns ++ ps)
      ∧ (recordAll st ps false).successful_patterns = st.successful_patterns := by
  induction ps with
  | nil =>
    intro st h
    have h0 : st.failed_patterns.length - 20 = 0 := by omega
    simp [recordAll, pyLastN, h0]
  | cons e ps ih =>
    intro st h
    have hstep : recordAll st (e :: ps) false
        = recordAll (save_successful_pattern st e.pattern e.timestamp false) ps false := rfl
    have hfail : (save_successful_pattern st e.pattern e.timestamp false).failed_patterns
        = pyLastN 20 (st.failed_patterns ++ [⟨e.pattern, e.timestamp⟩]) := by
      simp [save_successful_pattern]
    have hsucc : (save_successful_pattern st e.pattern e.timestamp false).successful_patterns
        = st.successful_patterns := by
      simp [save_successful_pattern]
    have hlen : (save_successful_pattern st e.pattern e.timestamp false).failed_patterns.length ≤ 20 := by
      rw [hfail]; exact pyLastN_length_le _ _
    rcases ih (save_successful_pattern st e.pattern e.timestamp false) hlen with ⟨ih1, ih2⟩
    constructor
    · rw [hstep, ih1, hfail, pyLastN_append_absorb]
      congr 1
      simp
    · rw [hstep, ih2, hsucc]

/-! ## Claim C3 -/

/-- C3 (amended): `record(pattern, success)` appends `{pattern, timestamp}` to
the list selected by `success` and truncates only that list to its cap (last
50 successes / last 20 failures); the other list is written back unchanged.
Starting from the empty store, recording 55 successful patterns in sequence
leaves exactly the most recent 50 in recency order, and recording 25 failed
patterns leaves exactly the most recent 20. -/
theorem pattern_store_record_caps :
    (∀ (st : PatternStore) (p : List Char) (ts : Nat),
        (save_successful_pattern st p ts true).successful_patterns
            = pyLastN 50 (st.successful_patterns ++ [⟨p, ts⟩])
        ∧ (save_successful_pattern st p ts true).failed_patterns
            = st.failed_patterns)
  ∧ (∀ (st : PatternStore) (p : List Char) (ts : Nat),
        (save_successful_pattern st p ts false).failed_patterns
            = pyLastN 20 (st.failed_patterns ++ [⟨p, ts⟩])
        ∧ (save_successful_pattern st p ts false).successful_patterns
            = st.successful_patterns)
  ∧ (∀ ps : List PatternEntry, ps.length = 55 →
        (recordAll emptyStore ps true).successful_patterns = ps.drop 5)
  ∧ (∀ ps : List PatternEntry, ps.length = 25 →
        (recordAll emptyStore ps false).failed_patterns = ps.drop 5) := by
  refine ⟨?_, ?_, ?_, ?_⟩
  · intro st p ts
    constructor <;> simp [save_successful_pattern]
  · intro st p ts
    constructor <;> simp [save_successful_pattern]
  · intro ps hlen
    have h := (recordAll_true ps emptyStore (by simp [emptyStore])).1
    rw [h]
    simp [emptyStore, pyLastN, hlen]
  · intro ps hlen
    have h := (recordAll_false ps emptyStore (by simp [emptyStore])).1
    rw [h]
    simp [emptyStore, pyLastN, hlen]

/-- Witness for C3: the 55-successes instance at a concrete list. -/
theorem pattern_store_record_caps_witness :
    (recordAll emptyStore (List.replicate 55 (⟨"p".data, 0⟩ : PatternEntry)) true).successful_patterns
      = (List.replicate 55 (⟨"p".data, 0⟩ : PatternEntry)).drop 5 :=
  pattern_store_record_caps.2.2.1 _ (by simp)

/-- Counterexample to C3 as stated: the claim's "truncates ... both lists, on
every call" fails — recording a success over a store whose `failed_patterns`
has 21 entries leaves all 21 in place (the code truncates only the list it
appended to), not the last 20 the claim requires. -/
theorem pattern_store_record_caps_cex :
    (save_successful_pattern overfullStore "p".data 1 true).failed_patterns.length = 21
  ∧ (save_successful_pattern overfullStore "p".data 1 true).failed_patterns
      ≠ pyLastN 20 overfullStore.failed_patterns := by
  constructor
  · decide
  · decide

/-! ## Claim C5 -/

/-- C5: for every non-200 response of the text-to-speech service,
`generate_speech_elevenlabs` does not raise: it returns the fixed fallback
duration 5.0 and leaves `output_path` unwritten; for an HTTP 200 response it
writes the raw response bytes to `output_path` and returns the decoded file's
playback duration in seconds (`len(audio) / 1000.0`). -/
theorem speech_synthesis_fallback :
    (∀ (decodeMs : List Nat → Nat) (resp : SynthResponse), resp.status ≠ 200 →
        generate_speech_elevenlabs decodeMs resp = (none, 5))
  ∧ (∀ (decodeMs : List Nat → Nat) (resp : SynthResponse), resp.status = 200 →
        generate_speech_elevenlabs decodeMs resp
          = (some resp.body, (decodeMs resp.body : ℚ) / 1000)) := by
  constructor
  · intro d r h
    simp [generate_speech_elevenlabs, h]
  · intro d r h
    simp [generate_speech_elevenlabs, h]

/-- Witness for C5: an HTTP 500 response yields `(none, 5)`. -/
theorem speech_synthesis_fallback_witness :
    generate_speech_elevenlabs (fun _ => 2000) ⟨500, [1, 2]⟩ = (none, 5) :=
  speech_synthesis_fallback.1 (fun _ => 2000) ⟨500, [1, 2]⟩ (by decide)

/-! ## Claim C6 -/

/-- C6: `validate_mermaid_syntax` (the render-confirmation check) returns
`True` iff the rendering service's outcome is a response with HTTP status 200,
a content type containing `image`, and a payload exceeding 1000 bytes; any
exception or non-matching response yields `False` (the function is total:
it never raises). -/
theorem confirm_renders_iff (o : HttpOutcome) :
    validate_mermaid_syntax o = true
  ↔ ∃ contentType body, o = .response 200 contentType body
      ∧ pyInSeq "image".data contentType = true ∧ 1000 < body.length := by
  cases o with
  | response s ct b =>
    by_cases hs : s = 200
    · subst hs
      have hval : validate_mermaid_syntax (HttpOutcome.response 200 ct b)
          = (pyInSeq "image".data ct && decide (1000 < b.length)) := rfl
      rw [hval]
      simp only [Bool.and_eq_true, decide_eq_true_eq, HttpOutcome.response.injEq, true_and]
      constructor
      · rintro ⟨h1, h2⟩
        exact ⟨ct, b, ⟨rfl, rfl⟩, h1, h2⟩
      · rintro ⟨ct', b', ⟨rfl, rfl⟩, h1, h2⟩
        exact ⟨h1, h2⟩
    · simp [ validate_mermaid_syntax, hs, Ne.symm hs]
  | exception =>
    simp [ validate_mermaid_syntax]

/-- Witness for C6: a 200 `image/png` response with a 1001-byte payload is
confirmed. -/
theorem confirm_renders_iff_witness :
    validate_mermaid_syntax (.response 200 "image/png".data (List.replicate 1001 0)) = true :=
  (confirm_renders_iff _).mpr ⟨"image/png".data, List.replicate 1001 0, rfl, by decide, by simp⟩

/-! ## Claim C7 -/

/-- C7: when no output filename is supplied, the Orchestrator derives it from
the topic by keeping only alphanumerics, spaces, hyphens and underscores,
converting each space to an underscore, truncating to 50 characters and
appending `_presentation.mp4`; for every topic the derived base contains only
alphanumerics, hyphens and underscores (every space was converted), and is at
most 50 characters long. -/
theorem filename_derivation :
    (∀ topic : List Char,
        deriveOutputFilename topic = sanitizeTopic topic ++ "_presentation.mp4".data
      ∧ (sanitizeTopic topic).length ≤ 50)
  ∧ (∀ (topic : List Char) (c : Char), c ∈ sanitizeTopic topic →
        (c.isAlphanum || c = '-' || c = '_') = true ∧ c ≠ ' ') := by
  constructor
  · intro topic
    exact ⟨rfl, List.length_take_le 50 _⟩
  · intro topic c hc
    have hc' := List.mem_of_mem_take hc
    rcases List.mem_map.mp hc' with ⟨a, ha, rfl⟩
    rcases List.mem_filter.mp ha with ⟨-, hpa⟩
    by_cases hsp : a = ' '
    · subst hsp
      simp
    · rw [if_neg hsp]
      simp only [Bool.or_eq_true, decide_eq_true_eq] at hpa
      rcases hpa with ((halnum | hspace) | hdash) | hu
      · simp [halnum, hsp]
      · exact absurd hspace hsp
      · simp [hdash, hsp]
      · simp [hu, hsp]

/-- Witness for C7: the underscore produced from the space in topic `a b`. -/
theorem filename_derivation_witness :
    ('_'.isAlphanum || '_' = '-' || '_' = '_') = true ∧ '_' ≠ ' ' :=
  filename_derivation.2 "a b".data '_' (by decide)

/-! ## Claim C10 -/

/-- C10: every slide whose `type` field is absent or differs from the exact
string `title` is treated as a content slide at all three dispatch points —
diagram generation is attempted (line 512), the content-style no-greeting
narration prompt is used (line 279), and the content layout is drawn
(line 385) — and `parse_gpt_content` returns the `slides` value unchanged,
validating neither slide kinds, nor their count, nor that a title slide comes
first. -/
theorem content_slide_dispatch :
    (∀ s : SlideData, s.type? ≠ some "title" →
        slideAttemptsDiagram s = true
      ∧ narrationUsesGreeting s = false
      ∧ slideUsesTitleLayout s = false)
  ∧ (∀ slides : List SlideData,
        parse_gpt_content (.jsonWithSlides slides) = .ok slides) := by
  constructor
  · intro s h
    have hb : (s.type? == some "title") = false := by
      simpa using h
    simp [slideAttemptsDiagram, narrationUsesGreeting, slideUsesTitleLayout, hb]
  · intro slides
    rfl

/-- Witness for C10: a slide with `type` equal to `content` takes the content
path everywhere. -/
theorem content_slide_dispatch_witness :
    slideAttemptsDiagram ⟨some "content", none, none, []⟩ = true
  ∧ narrationUsesGreeting ⟨some "content", none, none, []⟩ = false
  ∧ slideUsesTitleLayout ⟨some "content", none, none, []⟩ = false :=
  content_slide_dispatch.1 ⟨some "content", none, none, []⟩ (by decide)

/-! ## Claim C1 -/

/-- Counterexample to C1 as stated: rendering exhaustion raised during the
per-slide step is NOT process-fatal.  With a content slide, a successful
diagram generation, and a rendering endpoint that exhausts all 3 attempts,
`render_mermaid_to_image` does raise the rendering-exhausted error, yet the
per-slide `try/except` (ppt-gen.py lines 514-520) — which encloses the
`render_mermaid_to_image` call too, not only `generate_mermaid_chart` —
catches it and demotes it to "no diagram for this slide" (`.ok none`). -/
theorem render_exhaustion_caught_cex :
    (render_mermaid_to_image alwaysFailResp).2
        = .error "Failed to render Mermaid chart to image".data
  ∧ perSlideDiagramStep contentSlide (.ok "g".data) alwaysFailResp "chart_01.png".data
        = .ok none := by
  exact ⟨rfl, rfl⟩

/-- C1 (amended): the per-slide guard of the Orchestrator encloses BOTH the
diagram-generation call and the rendering call: any exception from either —
including a rendering-exhausted error — is caught and demoted to "no diagram
for this slide"; the step never lets an exception escape.  When both calls
succeed the chart path is kept. -/
theorem per_slide_diagram_guard (s : SlideData) (gen : Except Unit (List Char))
    (resp : Nat → HttpOutcome) (chartPath : List Char) :
    (∃ o, perSlideDiagramStep s gen resp chartPath = .ok o)
  ∧ (s.type? ≠ some "title" → ∀ e, gen = .error e →
        perSlideDiagramStep s gen resp chartPath = .ok none)
  ∧ (s.type? ≠ some "title" → ∀ code msg, gen = .ok code →
        (render_mermaid_to_image resp).2 = .error msg →
        perSlideDiagramStep s gen resp chartPath = .ok none)
  ∧ (s.type? ≠ some "title" → ∀ code bytes, gen = .ok code →
        (render_mermaid_to_image resp).2 = .ok bytes →
        perSlideDiagramStep s gen resp chartPath = .ok (some chartPath))
  ∧ (s.type? = some "title" → perSlideDiagramStep s gen resp chartPath = .ok none) := by
  by_cases ht : s.type? = some "title"
  · have hb : (s.type? == some "title") = true := by simpa using ht
    refine ⟨⟨none, by simp [perSlideDiagramStep, hb]⟩, ?_, ?_, ?_, ?_⟩
    · intro h
      exact absurd ht h
    · intro h
      exact absurd ht h
    · intro h
      exact absurd ht h
    · intro _
      simp [perSlideDiagramStep, hb]
  · have hb : (s.type? == some "title") = false := by simpa using ht
    refine ⟨?_, ?_, ?_, ?_, ?_⟩
    · rcases gen with e | code
      · exact ⟨none, by simp [perSlideDiagramStep, hb]⟩
      · rcases hr : (render_mermaid_to_image resp).2 with msg | bytes
        · exact ⟨none, by simp [perSlideDiagramStep, hb, hr]⟩
        · exact ⟨some chartPath, by simp [perSlideDiagramStep, hb, hr]⟩
    · intro _ e hgen
      subst hgen
      simp [perSlideDiagramStep, hb]
    · intro _ code msg hgen hr
      subst hgen
      simp [perSlideDiagramStep, hb, hr]
    · intro _ code bytes hgen hr
      subst hgen
      simp [perSlideDiagramStep, hb, hr]
    · intro h
      exact absurd h ht

/-- Witness for C1 (amended): the caught-render-exhaustion case at concrete
inputs. -/
theorem per_slide_diagram_guard_witness :
    perSlideDiagramStep contentSlide (.ok "g".data) alwaysFailResp "p".data = .ok none :=
  (per_slide_diagram_guard contentSlide (.ok "g".data) alwaysFailResp "p".data).2.2.1
    (by decide) "g".data "Failed to render Mermaid chart to image".data rfl rfl

/-! ## Claim C2 -/

/-- For candidates with at least two lines, the structural validation's
reject-and-record outcome agrees with the disjunction of the four rejection
conditions. -/
theorem structRejected_eq_spec (code : List Char)
    (h : 2 ≤ (pySplitChar '\n' code).length) :
    structRejectedB code = specStructuralRejectB code := by
  obtain ⟨l1, hl⟩ : ∃ l1, (pySplitChar '\n' code).get? 1 = some l1 := by
    cases h2 : (pySplitChar '\n' code).get? 1 with
    | none =>
      rw [List.get?_eq_none] at h2
      omega
    | some l1 => exact ⟨l1, rfl⟩
  simp only [structRejectedB, structuralCheck, specStructuralRejectB, hl]
  cases hb1 : "%%\x7binit:".data.isPrefixOf (pyStrip ((pySplitChar '\n' code).headD [])) with
  | false => simp [hb1]
  | true =>
    cases hb2 : (pyInSeq "graph TD".data l1 || pyInSeq "graph LR".data l1) with
    | false => simp [hb1, hb2]
    | true =>
      by_cases h3 : pyCountSeq "-->".data code < 4
      · simp [hb1, hb2, h3]
      · cases hb4a : pyInSeq "[\"".data code with
        | true => simp [hb1, hb2, h3, hb4a]
        | false =>
          cases hb4b : pyInSeq "[\x27".data code with
          | true => simp [hb1, hb2, h3, hb4a, hb4b]
          | false => simp [hb1, hb2, h3, hb4a, hb4b]

/-- C2 (amended): for every candidate with at least two lines, structural
validation rejects it (recording a failed pattern and continuing) iff at
least one of the four stated conditions holds (first line, trimmed, lacking
the init prefix; second line lacking both graph tokens; fewer than 4 arrows;
a quote immediately inside a bracket) — but a candidate whose first line
carries the init prefix and which has NO second line instead raises an
IndexError absorbed by the attempt's generic handler, recording nothing.
The claim's concrete 6-arrow example passes. -/
theorem structural_validation_iff :
    (∀ code : List Char, 2 ≤ (pySplitChar '\n' code).length →
        structRejectedB code = specStructuralRejectB code)
  ∧ structuralCheck acceptExample = CheckResult.passed := by
  constructor
  · exact structRejected_eq_spec
  · decide

/-- Witness for C2 (amended): a two-line candidate evaluated concretely. -/
theorem structural_validation_iff_witness :
    structRejectedB "graph TD\nA --> B".data
      = specStructuralRejectB "graph TD\nA --> B".data :=
  structural_validation_iff.1 "graph TD\nA --> B".data (by decide)

/-- Counterexample to C2 as stated: the one-line candidate `%%{init: test`
satisfies the claim's rejection disjunction (its arrow count 0 is below 4),
yet the code does not reject-and-record it: the `lines[1]` access raises an
IndexError that the attempt's generic handler absorbs, recording no failed
pattern. -/
theorem structural_validation_one_line_cex :
    specStructuralRejectB "%%\x7binit: test".data = true
  ∧ structRejectedB "%%\x7binit: test".data = false
  ∧ structuralCheck "%%\x7binit: test".data = CheckResult.indexError := by
  exact ⟨by decide, by decide, by decide⟩

/-! ## Claim C9 -/

/-- C9 (amended): the records appended by the diagram-generation retry loop
are exactly those of the attempts it executed, in order, and an attempt
appends exactly one record iff it reaches a success/failure classification:
attempts ending in an exception (the model call raising, or the one-line
candidate's IndexError) append none. -/
theorem attempt_record_accounting :
    (∀ (inputs : Nat → AttemptInput) (a f : Nat),
        (generateLoop inputs a f).1
          = ((executedAttempts inputs a f).map fun inp => (processAttempt inp).1).flatten)
  ∧ (∀ inp : AttemptInput,
        (processAttempt inp).1.length = if attemptClassified inp then 1 else 0) := by
  constructor
  · intro inputs a f
    induction f generalizing a with
    | zero => rfl
    | succ f ih =>
      simp only [generateLoop, executedAttempts]
      cases hp : (processAttempt (inputs a)).2 with
      | none => simp [hp, ih]
      | some code => simp [hp]
  · intro inp
    rcases inp with _ | ⟨text, render⟩
    · rfl
    · simp only [processAttempt, attemptClassified]
      split <;> simp_all
      split <;> simp_all

/-- Counterexample to C9 as stated: with the model call raising on every
attempt, the loop executes all 10 attempts yet appends zero pattern records
(the claim requires one per attempt), and then raises the exhaustion error. -/
theorem attempt_record_accounting_cex :
    (executedAttempts (fun _ => AttemptInput.llmError) 0 10).length = 10
  ∧ (generateLoop (fun _ => AttemptInput.llmError) 0 10).1 = []
  ∧ (generate_mermaid_chart (fun _ => AttemptInput.llmError)).2 = .error () := by
  exact ⟨by decide, rfl, rfl⟩

/-! ## Claim C4 -/

theorem countAttempts_nil : countAttempts [] = 0 := rfl

theorem countAttempts_cons_req (a : Nat) (tr : List REvent) :
    countAttempts (REvent.attemptReq a :: tr) = countAttempts tr + 1 := by
  simp [countAttempts]

theorem countAttempts_cons_sleep (s : Nat) (tr : List REvent) :
    countAttempts (REvent.sleep s :: tr) = countAttempts tr := by
  simp [countAttempts]

theorem countAttempts_tailPause_append (o : HttpOutcome) (tr : List REvent) :
    countAttempts (tailPause o ++ tr) = countAttempts tr := by
  rcases o with ⟨s, ct, b⟩ | _ <;>
    simp [tailPause, countAttempts_cons_sleep]

theorem renderGo_success (resp : Nat → HttpOutcome) (maxr a f : Nat)
    (h : isRenderSuccess (resp a) = true) :
    renderGo resp maxr a (f + 1)
      = ([.attemptReq a, .write (respBody (resp a))], some (respBody (resp a))) := by
  rcases hr : resp a with ⟨s, ct, b⟩ | _
  · rw [hr] at h
    simp only [isRenderSuccess] at h
    simp [renderGo, hr, h, respBody]
  · rw [hr] at h
    simp [isRenderSuccess] at h

theorem renderGo_fail (resp : Nat → HttpOutcome) (maxr a f : Nat)
    (h : isRenderSuccess (resp a) = false) (ha : a < maxr - 1) :
    renderGo resp maxr a (f + 1)
      = (REvent.attemptReq a :: REvent.sleep 2 :: (renderGo resp maxr (a + 1) f).1,
         (renderGo resp maxr (a + 1) f).2) := by
  rcases hr : resp a with ⟨s, ct, b⟩ | _
  · rw [hr] at h
    simp only [isRenderSuccess] at h
    simp [renderGo, hr, h]
  · simp [renderGo, hr, ha]

theorem renderGo_fail_last (resp : Nat → HttpOutcome) (maxr a f : Nat)
    (h : isRenderSuccess (resp a) = false) (ha : ¬ a < maxr - 1) :
    renderGo resp maxr a (f + 1)
      = (REvent.attemptReq a :: (tailPause (resp a) ++ (renderGo resp maxr (a + 1) f).1),
         (renderGo resp maxr (a + 1) f).2) := by
  rcases hr : resp a with ⟨s, ct, b⟩ | _
  · rw [hr] at h
    simp only [isRenderSuccess] at h
    simp [renderGo, hr, h, tailPause]
  · simp [renderGo, hr, ha, tailPause]

theorem renderGo_attempts_le (resp : Nat → HttpOutcome) (maxr : Nat) :
    ∀ (f a : Nat), countAttempts (renderGo resp maxr a f).1 ≤ f := by
  intro f
  induction f with
  | zero =>
    intro a
    simp [renderGo, countAttempts_nil]
  | succ f ih =>
    intro a
    cases hs : isRenderSuccess (resp a) with
    | true =>
      rw [renderGo_success resp maxr a f hs]
      simp [countAttempts]
    | false =>
      by_cases ha : a < maxr - 1
      · rw [renderGo_fail resp maxr a f hs ha]
        rw [countAttempts_cons_req, countAttempts_cons_sleep]
        have := ih (a + 1)
        omega
      · rw [renderGo_fail_last resp maxr a f hs ha]
        rw [countAttempts_cons_req, countAttempts_tailPause_append]
        have := ih (a + 1)
        omega

/-- C4: `render_mermaid_to_image` makes at most 3 attempts, pausing 2 seconds
between attempts, retrying on any non-200 status, non-image content type, or
exception; on the first successful attempt it writes exactly that attempt's
raw response bytes to `output_path` and returns; after exhausting 3 attempts
without success it raises the rendering-exhausted error (writing nothing). -/
theorem render_retry_behavior (resp : Nat → HttpOutcome) :
    countAttempts (render_mermaid_to_image resp).1 ≤ 3
  ∧ (∀ i, i < 3 → isRenderSuccess (resp i) = true →
      (∀ j, j < i → isRenderSuccess (resp j) = false) →
        (render_mermaid_to_image resp).2 = .ok (respBody (resp i))
      ∧ (render_mermaid_to_image resp).1
          = failPrefix i ++ [.attemptReq i, .write (respBody (resp i))])
  ∧ ((∀ j, j < 3 → isRenderSuccess (resp j) = false) →
        (render_mermaid_to_image resp).2
            = .error "Failed to render Mermaid chart to image".data
      ∧ writeEvents (render_mermaid_to_image resp).1 = []
      ∧ (render_mermaid_to_image resp).1
          = failPrefix 2 ++ [.attemptReq 2] ++ tailPause (resp 2)
      ∧ countAttempts (render_mermaid_to_image resp).1 = 3) := by
  refine ⟨?_, ?_, ?_⟩
  · have hle := renderGo_attempts_le resp 3 3 0
    rcases hgo : renderGo resp 3 0 3 with ⟨tr, ores⟩
    rw [hgo] at hle
    rcases ores with _ | bytes <;> simpa [render_mermaid_to_image, hgo] using hle
  · intro i hi hsucc hfail
    interval_cases i
    · have hgo : renderGo resp 3 0 3
          = ([.attemptReq 0, .write (respBody (resp 0))], some (respBody (resp 0))) :=
        renderGo_success resp 3 0 2 hsucc
      constructor <;> simp [render_mermaid_to_image, hgo, failPrefix]
    · have h0 : isRenderSuccess (resp 0) = false := hfail 0 (by omega)
      have hg1 : renderGo resp 3 1 2
          = ([.attemptReq 1, .write (respBody (resp 1))], some (respBody (resp 1))) :=
        renderGo_success resp 3 1 1 hsucc
      have hgo : renderGo resp 3 0 3
          = (REvent.attemptReq 0 :: REvent.sleep 2 :: (renderGo resp 3 1 2).1,
             (renderGo resp 3 1 2).2) :=
        renderGo_fail resp 3 0 2 h0 (by omega)
      rw [hg1] at hgo
      have hfp : failPrefix 1 = [REvent.attemptReq 0, .sleep 2] := by
        decide
      constructor <;> simp [render_mermaid_to_image, hgo, hfp]
    · have h0 : isRenderSuccess (resp 0) = false := hfail 0 (by omega)
      have h1 : isRenderSuccess (resp 1) = false := hfail 1 (by omega)
      have hg2 : renderGo resp 3 2 1
          = ([.attemptReq 2, .write (respBody (resp 2))], some (respBody (resp 2))) :=
        renderGo_success resp 3 2 0 hsucc
      have hg1 : renderGo resp 3 1 2
          = (REvent.attemptReq 1 :: REvent.sleep 2 :: (renderGo resp 3 2 1).1,
             (renderGo resp 3 2 1).2) :=
        renderGo_fail resp 3 1 1 h1 (by omega)
      rw [hg2] at hg1
      have hgo : renderGo resp 3 0 3
          = (REvent.attemptReq 0 :: REvent.sleep 2 :: (renderGo resp 3 1 2).1,
             (renderGo resp 3 1 2).2) :=
        renderGo_fail resp 3 0 2 h0 (by omega)
      rw [hg1] at hgo
      have hfp : failPrefix 2 = [REvent.attemptReq 0, .sleep 2, .attemptReq 1, .sleep 2] := by
        decide
      constructor <;> simp [render_mermaid_to_image, hgo, hfp]
  · intro hfail
    have hg2 : renderGo resp 3 2 1
        = (REvent.attemptReq 2 :: (tailPause (resp 2) ++ []), none) := by
      rw [renderGo_fail_last resp 3 2 0 (hfail 2 (by omega)) (by omega)]
      simp [renderGo]
    have hg1 : renderGo resp 3 1 2
        = (REvent.attemptReq 1 :: REvent.sleep 2 :: (renderGo resp 3 2 1).1,
           (renderGo resp 3 2 1).2) :=
      renderGo_fail resp 3 1 1 (hfail 1 (by omega)) (by omega)
    rw [hg2] at hg1
    have hgo : renderGo resp 3 0 3
        = (REvent.attemptReq 0 :: REvent.sleep 2 :: (renderGo resp 3 1 2).1,
           (renderGo resp 3 1 2).2) :=
      renderGo_fail resp 3 0 2 (hfail 0 (by omega)) (by omega)
    rw [hg1] at hgo
    have hfp : failPrefix 2 = [REvent.attemptReq 0, .sleep 2, .attemptReq 1, .sleep 2] := by
      decide
    refine ⟨?_, ?_, ?_, ?_⟩
    · simp [render_mermaid_to_image, hgo]
    · rcases hr2 : resp 2 with ⟨s, ct, b⟩ | _ <;>
        simp [render_mermaid_to_image, hgo, hr2, tailPause, writeEvents]
    · simp [render_mermaid_to_image, hgo, hfp]
    · rcases hr2 : resp 2 with ⟨s, ct, b⟩ | _ <;>
        simp [render_mermaid_to_image, hgo, hr2, tailPause, countAttempts_cons_req,
          countAttempts_cons_sleep, countAttempts_nil, countAttempts]

/-- Witness for C4: against `thirdTimeResp`, `render` succeeds with the third
response's bytes after two paused retries. -/
theorem render_retry_behavior_witness :
    (render_mermaid_to_image thirdTimeResp).2 = .ok (respBody (thirdTimeResp 2))
  ∧ (render_mermaid_to_image thirdTimeResp).1
      = failPrefix 2 ++ [.attemptReq 2, .write (respBody (thirdTimeResp 2))] :=
  (render_retry_behavior thirdTimeResp).2.1 2 (by decide) (by decide)
    (fun j hj => by interval_cases j <;> decide)

/-! ## Claim C8 -/

theorem wrapGo_length_ge (measure : List Char → Nat) (maxW : Nat) :
    ∀ (ws curr acc : List (List Char)), curr ≠ [] →
      acc.length + 1 ≤ (wrapGo measure maxW ws curr acc).length := by
  intro ws
  induction ws with
  | nil =>
    intro curr acc h
    have hne : curr.isEmpty = false := by
      simpa [List.isEmpty_iff] using h
    simp [wrapGo, hne]
  | cons w ws ih =>
    intro curr acc h
    by_cases hov : maxW < measure (joinSpace (curr ++ [w]))
    · simp only [wrapGo, if_pos hov]
      have := ih [w] (acc ++ [joinSpace curr]) (by simp)
      simp only [List.length_append, List.length_singleton] at this
      omega
    · simp only [wrapGo, if_neg hov]
      exact le_trans (by omega) (ih (curr ++ [w]) acc (by simp))

theorem wrapGo_two_lines (measure : List Char → Nat) (maxW : Nat) :
    ∀ (ws curr acc : List (List Char)), curr ≠ [] →
      measure (joinSpace curr) ≤ maxW →
      maxW < measure (joinSpace (curr ++ ws)) →
      acc.length + 2 ≤ (wrapGo measure maxW ws curr acc).length := by
  intro ws
  induction ws with
  | nil =>
    intro curr acc h hle hover
    rw [List.append_nil] at hover
    omega
  | cons w ws ih =>
    intro curr acc h hle hover
    by_cases hov : maxW < measure (joinSpace (curr ++ [w]))
    · simp only [wrapGo, if_pos hov]
      have := wrapGo_length_ge measure maxW ws [w] (acc ++ [joinSpace curr]) (by simp)
      simp only [List.length_append, List.length_singleton] at this
      omega
    · simp only [wrapGo, if_neg hov]
      refine ih (curr ++ [w]) acc (by simp) (by omega) ?_
      have harr : (curr ++ [w]) ++ ws = curr ++ (w :: ws) := by simp
      rw [harr]
      exact hover

theorem wrapGo_line_classes (measure : List Char → Nat) (maxW : Nat)
    (allW : List (List Char)) :
    ∀ (ws curr acc : List (List Char)),
      (∀ l ∈ acc, l = [] ∨ measure l ≤ maxW ∨ l ∈ allW) →
      (curr = [] ∨ measure (joinSpace curr) ≤ maxW ∨ ∃ w ∈ allW, curr = [w]) →
      (∀ w ∈ ws, w ∈ allW) →
      ∀ l ∈ wrapGo measure maxW ws curr acc,
        l = [] ∨ measure l ≤ maxW ∨ l ∈ allW := by
  intro ws
  induction ws with
  | nil =>
    intro curr acc hacc hcurr _
    by_cases h : curr = []
    · have he : curr.isEmpty = true := by simp [h]
      simpa [wrapGo, he] using hacc
    · have hne : curr.isEmpty = false := by
        simpa [List.isEmpty_iff] using h
      simp only [wrapGo, hne, Bool.false_eq_true, if_false]
      intro l hl
      rcases List.mem_append.mp hl with hl | hl
      · exact hacc l hl
      · rw [List.mem_singleton.mp hl]
        rcases hcurr with rfl | hm | ⟨w, hw, rfl⟩
        · exact absurd rfl h
        · exact Or.inr (Or.inl hm)
        · right; right
          simpa [joinSpace] using hw
  | cons w ws ih =>
    intro curr acc hacc hcurr hws
    by_cases hov : maxW < measure (joinSpace (curr ++ [w]))
    · simp only [wrapGo, if_pos hov]
      refine ih [w] (acc ++ [joinSpace curr]) ?_ ?_ ?_
      · intro l hl
        rcases List.mem_append.mp hl with hl | hl
        · exact hacc l hl
        · rw [List.mem_singleton.mp hl]
          rcases hcurr with rfl | hm | ⟨w', hw', rfl⟩
          · exact Or.inl (by simp [joinSpace])
          · exact Or.inr (Or.inl hm)
          · right; right
            simpa [joinSpace] using hw'
      · right; right
        exact ⟨w, hws w (by simp), rfl⟩
      · intro w' hw'
        exact hws w' (by simp [hw'])
    · simp only [wrapGo, if_neg hov]
      refine ih (curr ++ [w]) acc hacc ?_ ?_
      · right; left
        omega
      · intro w' hw'
        exact hws w' (by simp [hw'])

/-- C8 (amended): the Slide Compositor wraps each bullet by greedily
accumulating words until the next word would push `' '.join(current_line)`
past the 800px bound, then starting a new line from that word.  A bullet with
at least one word whose full joined text measures over 800px produces at
least two wrapped lines; and every wrapped line is either empty (produced
when the very first word already exceeds the bound), a single word of the
bullet (which may itself measure over 800px), or measures at most 800px. -/
theorem bullet_word_wrap (measure : List Char → Nat) (bullet : List Char) :
    (pySplitWS bullet ≠ [] → 800 < measure (joinSpace (pySplitWS bullet)) →
        2 ≤ (wrapBullet measure bullet).length)
  ∧ (∀ l ∈ wrapBullet measure bullet,
        l = [] ∨ measure l ≤ 800 ∨ l ∈ pySplitWS bullet) := by
  constructor
  · intro hne hover
    rcases hw : pySplitWS bullet with _ | ⟨w, ws⟩
    · exact absurd hw hne
    · rw [hw] at hover
      unfold wrapBullet
      rw [hw]
      have hstep : wrapGo measure 800 (w :: ws) [] []
          = if 800 < measure (joinSpace ([] ++ [w]))
            then wrapGo measure 800 ws [w] ([] ++ [joinSpace []])
            else wrapGo measure 800 ws ([] ++ [w]) [] := rfl
      rw [hstep]
      by_cases h1 : 800 < measure (joinSpace ([] ++ [w]))
      · rw [if_pos h1]
        have := wrapGo_length_ge measure 800 ws [w] ([] ++ [joinSpace []]) (by simp)
        simpa using this
      · rw [if_neg h1]
        have hov2 : 800 < measure (joinSpace ([w] ++ ws)) := hover
        have := wrapGo_two_lines measure 800 ws [w] [] (by simp)
          (by simpa using h1) hov2
        simpa using this
  · intro l hl
    exact wrapGo_line_classes measure 800 (pySplitWS bullet) (pySplitWS bullet) [] []
      (by simp) (Or.inl rfl) (fun w hw => hw) l hl

/-- Counterexample to C8 as stated: with the pixel measure instantiated as
the character count, the single 801-wide word wraps to two lines `["", word]`
— the word's own line measures 801 > 800, violating the claim's "no single
wrapped line exceeds the 800px bound" (the greedy loop flushes an empty first
line and leaves the oversized word intact on its own line). -/
theorem bullet_word_wrap_cex :
    wrapBullet (fun l => l.length) longWordBullet = [[], List.replicate 801 'a']
  ∧ 800 < (List.replicate 801 'a').length := by
  constructor
  · rfl
  · simp

/-- Witness for C8 (amended): a two-word bullet whose joined text measures
over the bound wraps to at least two lines, and its first word is a wrapped
line of the allowed classes. -/
theorem bullet_word_wrap_witness :
    2 ≤ (wrapBullet (fun l => 100 * l.length) "aaaa bbbb".data).length
  ∧ ("aaaa".data = [] ∨ 100 * "aaaa".data.length ≤ 800
      ∨ "aaaa".data ∈ pySplitWS "aaaa bbbb".data) :=
  ⟨(bullet_word_wrap (fun l => 100 * l.length) "aaaa bbbb".data).1 (by decide) (by decide),
   (bullet_word_wrap (fun l => 100 * l.length) "aaaa bbbb".data).2 "aaaa".data (by decide)⟩
